import Mathlib

/-!
Verification of the synthetic disk-image generator (`Data_Generator` in
`tutorials/segmentation.ipynb`).

The generator holds two mutable grids `img` and `img_truth` of shape
`(nx, ny)`, zero-initialized at construction.  Each call to `generate`
draws a Poisson number of disks, and for each disk draws a center
`(xc, yc)`, a radius `r` and a gray value `v`; it rasterizes the disk
with the boolean mask `(xx - xc)^2 + (yy - yc)^2 - r^2 < 0`, writes `v`
into `img` and `1` into `img_truth` at the masked pixels, then adds
`sigma`-scaled noise to `img` and clips it to `[0, 255]`.

Two aspects of the NumPy source are embedded explicitly:

* `np.meshgrid(x, y)` uses the default `'xy'` indexing, so `xx` and `yy`
  have shape `(ny, nx)` with `xx[i][j] = j` and `yy[i][j] = i`: the
  boolean mask computed from them has shape `(ny, nx)`, while `img` and
  `img_truth` have shape `(nx, ny)`.  NumPy boolean assignment
  `img[mask] = v` requires the mask shape to equal the array shape, so
  it raises `IndexError` whenever `nx ≠ ny`; the embedding returns
  `none` in that case.  When `nx = ny` the shapes agree and pixel
  `(i, j)` (row `i`, column `j`) is selected iff
  `(j - xc)^2 + (i - yc)^2 - r^2 < 0`.

* `generate` never resets `img` or `img_truth`: painting starts from
  whatever the grids held after the previous call, so state carries
  over between calls on the same instance.

Randomness is modelled by passing the drawn values explicitly: a `Draws`
record carries the list of drawn disks (its length is the Poisson draw
`ndisks`) and the raw standard-normal noise grid, which `generate`
scales by `sigma`.  Grids are total functions `Nat → Nat → ℚ`; only the
indices below `(nx, ny)` are meaningful, and all claims are stated at
such indices.
-/

/-- A 2-D grid of rational pixel values, indexed `(row, column)`. -/
abbrev Grid := Nat → Nat → ℚ

/-- One drawn disk: center `(xc, yc)`, radius `r`, gray value `v`
(`xc ~ U(0, nx)`, `yc ~ U(0, ny)`, `r ~ N(rmean, rstd)`,
`v ~ U(vmin, vmax)` in the source). -/
structure Disk where
  xc : ℚ
  yc : ℚ
  r : ℚ
  v : ℚ
deriving DecidableEq

/-- The random draws consumed by one call to `generate`: the disks drawn
(the Poisson draw `ndisks` is the length of `disks`) and the raw
standard-normal noise grid produced by `np.random.randn(nx, ny)`. -/
structure Draws where
  disks : List Disk
  noise : Grid

/-- The state of a `Data_Generator` instance: the configuration fields
and the two persistent grids `img` and `img_truth`. -/
structure Data_Generator where
  nx : Nat
  ny : Nat
  theta : ℚ
  rmean : ℚ
  rstd : ℚ
  vmin : ℚ
  vmax : ℚ
  sigma : ℚ
  img : Grid
  img_truth : Grid

/-- The constructor `Data_Generator.__init__`: stores the parameters and
zero-initializes `img` and `img_truth` (`np.zeros((nx, ny))`).  The
source performs no validation of the parameters and has no failure
path, so the embedding is total. -/
def Data_Generator.init (nx ny : Nat) (theta rmean rstd vmin vmax sigma : ℚ) :
    Data_Generator :=
  { nx := nx, ny := ny, theta := theta, rmean := rmean, rstd := rstd,
    vmin := vmin, vmax := vmax, sigma := sigma,
    img := fun _ _ => 0, img_truth := fun _ _ => 0 }

/-- The boolean rasterization mask of one disk, evaluated at row `i`,
column `j`.  With `'xy'` meshgrid indexing, `xx[i][j] = j` and
`yy[i][j] = i`, so the source expression
`np.power(xx - xc, 2) + np.power(yy - yc, 2) - r**2 < 0` becomes
`(j - xc)^2 + (i - yc)^2 - r^2 < 0`. -/
def diskMask (d : Disk) (i j : Nat) : Bool :=
  decide (((j : ℚ) - d.xc) ^ 2 + ((i : ℚ) - d.yc) ^ 2 - d.r ^ 2 < 0)

/-- The rasterization loop of `generate`: paint each drawn disk in turn
onto `img` (value `v`) and `img_truth` (value `1`).  Each iteration
performs the NumPy boolean assignments `img[mask] = v` and
`img_truth[mask] = 1` with a mask of shape `(ny, nx)` on arrays of
shape `(nx, ny)`; when `nx ≠ ny` those shapes disagree and NumPy raises
`IndexError`, embedded as `none`. -/
def paintDisks (nx ny : Nat) : List Disk → Grid → Grid → Option (Grid × Grid)
  | [], img, tru => some (img, tru)
  | d :: ds, img, tru =>
    if nx = ny then
      paintDisks nx ny ds
        (fun i j => if diskMask d i j then d.v else img i j)
        (fun i j => if diskMask d i j then 1 else tru i j)
    else
      none

/-- `np.maximum` on two rationals. -/
def rmax (a b : ℚ) : ℚ :=
  if a ≤ b then b else a

/-- `np.minimum` on two rationals. -/
def rmin (a b : ℚ) : ℚ :=
  if a ≤ b then a else b

/-- `np.clip(x, lo, hi)`, elementwise form:
`np.minimum(np.maximum(x, lo), hi)`. -/
def clip (x lo hi : ℚ) : ℚ :=
  rmin (rmax x lo) hi

/-- One call to `generate`: paint the drawn disks starting from the
instance's current grids (they are not reset), then set
`img := clip (img + sigma * noise) 0 255` and return the updated state
together with the returned pair `(img, img_truth)`.  `none` embeds the
`IndexError` raised by the rasterization loop when `nx ≠ ny`. -/
def Data_Generator.generate (s : Data_Generator) (dr : Draws) :
    Option (Data_Generator × Grid × Grid) :=
  (paintDisks s.nx s.ny dr.disks s.img s.img_truth).map (fun p =>
    let img2 : Grid := fun i j => clip (p.1 i j + s.sigma * dr.noise i j) 0 255
    ({ s with img := img2, img_truth := p.2 }, img2, p.2))

/-- A sequence of calls to `generate` on one instance, threading the
instance state and collecting the returned `(img, img_truth)` pairs. -/
def generateSeq : Data_Generator → List Draws → Option (Data_Generator × List (Grid × Grid))
  | s, [] => some (s, [])
  | s, dr :: drs =>
    (s.generate dr).bind (fun t =>
      (generateSeq t.1 drs).map (fun u => (u.1, (t.2.1, t.2.2) :: u.2)))

/-- Modelled from the spec: the configuration constraints
`nx, ny ≥ 1`, `theta > 0`, `vmin ≤ vmax`, `sigma ≥ 0` that the spec
says construction validates.  The source constructor contains no such
check; this predicate exists only to compare the spec's words with the
code's behavior. -/
def validConfig (nx ny : Nat) (theta vmin vmax sigma : ℚ) : Bool :=
  decide (1 ≤ nx) && decide (1 ≤ ny) && decide (0 < theta) &&
    decide (vmin ≤ vmax) && decide (0 ≤ sigma)

/-- A concrete disk whose disc strictly contains pixel `(0, 0)`. -/
def diskA : Disk := ⟨0, 0, 1, 100⟩

/-- A draw outcome with exactly one disk (`ndisks = 1`) and zero raw noise. -/
def drawsOne : Draws := ⟨[diskA], fun _ _ => 0⟩

/-- A draw outcome with no disks (`ndisks = 0`) and zero raw noise. -/
def drawsNone : Draws := ⟨[], fun _ _ => 0⟩

/-- A freshly constructed instance on a square 2×2 grid with `sigma = 0`. -/
def gen0 : Data_Generator := Data_Generator.init 2 2 1 1 0 0 255 0

/-- A freshly constructed instance on a rectangular 2×3 grid with `sigma = 0`. -/
def gen23 : Data_Generator := Data_Generator.init 2 3 1 1 0 0 255 0

/-- Every pixel produced by the final `np.clip(·, 0, 255)` lies in `[0, 255]`. -/
theorem clip_mem (x : ℚ) : 0 ≤ clip x 0 255 ∧ clip x 0 255 ≤ 255 := by
  unfold clip rmin rmax
  refine ⟨?_, ?_⟩ <;> split_ifs <;> linarith

/-- C2 counterexample: the configuration `nx = ny = 4`, `theta = 1`,
`vmin = 200 > vmax = 15`, `sigma = 30` violates the constraints, yet the
constructor succeeds (it is total in the source: no raise path exists)
and initializes both grids to zero; no `InvalidConfiguration` is raised. -/
theorem C2_counterexample :
    validConfig 4 4 1 200 15 30 = false ∧
    (Data_Generator.init 4 4 1 4 (1/2) 200 15 30).img 0 0 = 0 ∧
    (Data_Generator.init 4 4 1 4 (1/2) 200 15 30).img_truth 0 0 = 0 :=
  ⟨by decide, rfl, rfl⟩

/-- C2 (amended): the constructor performs no validation at all: for
every configuration, constraint-violating or not, it succeeds and
initializes `img` and `img_truth` as all-zero grids recording the
requested shape `(nx, ny)`; it never raises `InvalidConfiguration`. -/
theorem C2_init_no_validation (nx ny : Nat) (theta rmean rstd vmin vmax sigma : ℚ)
    (i j : Nat) :
    (Data_Generator.init nx ny theta rmean rstd vmin vmax sigma).img i j = 0 ∧
    (Data_Generator.init nx ny theta rmean rstd vmin vmax sigma).img_truth i j = 0 ∧
    (Data_Generator.init nx ny theta rmean rstd vmin vmax sigma).nx = nx ∧
    (Data_Generator.init nx ny theta rmean rstd vmin vmax sigma).ny = ny :=
  ⟨rfl, rfl, rfl, rfl⟩

/-- C1: the code evaluated at the failing input.  On instance `gen0`
(fresh, valid configuration), a first call whose draws are `drawsOne`
(one disk covering pixel `(0,0)`) is followed by a second call whose
draws are `drawsNone` (no disks, zero noise).  The second call returns
`(image, mask)` with value `(100, 1)` at pixel `(0,0)`, while a first
call on a freshly constructed instance with the same configuration and
the same draws `drawsNone` returns `(0, 0)` there: the grids are not
fully overwritten, so the returned pair is not determined by the
call's own draws. -/
theorem C1_second_call_depends_on_state :
    ((gen0.generate drawsOne).bind (fun t => t.1.generate drawsNone)).map
        (fun u => (u.2.1 0 0, u.2.2 0 0)) = some (100, 1) ∧
    (gen0.generate drawsNone).map (fun u => (u.2.1 0 0, u.2.2 0 0)) = some (0, 0) := by
  constructor <;>
  · norm_num [gen0, Data_Generator.init, Data_Generator.generate, paintDisks,
    drawsOne, drawsNone, diskA, diskMask, clip, rmin, rmax, Option.bind, Option.map]

/-- C3: the code evaluated at the failing input.  On the rectangular
grid `gen23` (`nx = 2 ≠ 3 = ny`, a valid configuration), a call that
draws one disk fails (`none` embeds the `IndexError` raised because the
meshgrid boolean mask has shape `(ny, nx)` while the image has shape
`(nx, ny)`), whereas a call drawing zero disks still succeeds. -/
theorem C3_rect_grid_raises :
    gen23.nx = 2 ∧ gen23.ny = 3 ∧
    gen23.generate drawsOne = none ∧
    (gen23.generate drawsNone).map (fun u => u.2.2 0 0) = some 0 := by
  refine ⟨rfl, rfl, rfl, ?_⟩
  norm_num [gen23, Data_Generator.init, Data_Generator.generate, paintDisks,
    drawsNone, clip, rmin, rmax, Option.map]

/-- C4: the code evaluated at the failing input.  After the second call
on `gen0`, whose draw list is empty, the returned mask still holds `1`
at pixel `(0,0)` even though that pixel lies inside none of the disks
drawn by that call: mask pixels from earlier calls are never cleared. -/
theorem C4_mask_persists_across_calls :
    drawsNone.disks = [] ∧
    ((gen0.generate drawsOne).bind (fun t => t.1.generate drawsNone)).map
        (fun u => u.2.2 0 0) = some 1 := by
  refine ⟨rfl, ?_⟩
  norm_num [gen0, Data_Generator.init, Data_Generator.generate, paintDisks,
    drawsOne, drawsNone, diskA, diskMask, clip, rmin, rmax, Option.bind, Option.map]

/-- C6: the code evaluated at the failing input.  The second call on
`gen0` draws `ndisks = 0`, so per the claim its mask should be all zero
and its image should equal the clipped noise grid, which is `0` at
every pixel here (`sigma = 0`).  Instead the call returns image value
`100` and mask value `1` at pixel `(0,0)`, left over from the first
call's disk. -/
theorem C6_zero_disk_call_not_noise_only :
    drawsNone.disks = [] ∧
    clip (gen0.sigma * drawsNone.noise 0 0) 0 255 = 0 ∧
    ((gen0.generate drawsOne).bind (fun t => t.1.generate drawsNone)).map
        (fun u => (u.2.1 0 0, u.2.2 0 0)) = some (100, 1) := by
  refine ⟨rfl, ?_, ?_⟩ <;>
  · norm_num [gen0, Data_Generator.init, Data_Generator.generate, paintDisks,
    drawsOne, drawsNone, diskA, diskMask, clip, rmin, rmax, Option.bind, Option.map]

/-- C5: every pixel of the image returned by any successful call to
`generate` lies in `[0, 255]`, for every state (any configuration, any
`sigma`) and every outcome of the draws (disk values and noise of any
magnitude), by the final clip. -/
theorem C5_image_range (s : Data_Generator) (dr : Draws) (i j : Nat) (q : ℚ)
    (h : (s.generate dr).map (fun u => u.2.1 i j) = some q) :
    0 ≤ q ∧ q ≤ 255 := by
  unfold Data_Generator.generate at h
  cases hp : paintDisks s.nx s.ny dr.disks s.img s.img_truth with
  | none => rw [hp] at h; simp at h
  | some p =>
    rw [hp] at h
    simp only [Option.map_some] at h
    obtain rfl : clip (p.1 i j + s.sigma * dr.noise i j) 0 255 = q :=
      Option.some_injective _ h
    exact clip_mem _

/-- C5 witness: on `gen0` with draws `drawsOne`, the returned image has
value `100` at pixel `(0,0)`, and that value lies in `[0, 255]`. -/
theorem C5_image_range_witness :
    (gen0.generate drawsOne).map (fun u => u.2.1 0 0) = some 100 ∧
    (0:ℚ) ≤ 100 ∧ (100:ℚ) ≤ 255 := by
  constructor
  · norm_num [gen0, Data_Generator.init, Data_Generator.generate, paintDisks,
    drawsOne, drawsNone, diskA, diskMask, clip, rmin, rmax, Option.bind, Option.map]
  · exact C5_image_range gen0 drawsOne 0 0 100 (by
      norm_num [gen0, Data_Generator.init, Data_Generator.generate, paintDisks,
    drawsOne, drawsNone, diskA, diskMask, clip, rmin, rmax, Option.bind, Option.map])

/-- Unfolding lemma: painting on a square grid never fails and processes
the head disk by overwriting `img` with `v` and `img_truth` with `1` at
the masked pixels. -/
theorem paintDisks_cons (n : Nat) (d : Disk) (ds : List Disk) (img tru : Grid) :
    paintDisks n n (d :: ds) img tru =
      paintDisks n n ds
        (fun i j => if diskMask d i j then d.v else img i j)
        (fun i j => if diskMask d i j then 1 else tru i j) := by
  simp [paintDisks]

/-- Painting a two-disk list on a square grid: the second disk
overwrites the first at overlapping pixels in `img`, while `img_truth`
receives `1` at every pixel of either disc. -/
theorem paintDisks_two (n : Nat) (d1 d2 : Disk) (img tru : Grid) :
    paintDisks n n [d1, d2] img tru = some
      (fun i j => if diskMask d2 i j then d2.v else
        if diskMask d1 i j then d1.v else img i j,
       fun i j => if diskMask d2 i j then 1 else
        if diskMask d1 i j then 1 else tru i j) := by
  simp [paintDisks]

/-- Characterization of a successful call to `generate` in terms of the
painting result: the image is the painted grid plus scaled noise,
clipped, and the returned mask is the painted truth grid. -/
theorem generate_eq (s : Data_Generator) (dr : Draws) (p : Grid × Grid)
    (hp : paintDisks s.nx s.ny dr.disks s.img s.img_truth = some p) :
    s.generate dr = some
      ({ s with
          img := fun i j => clip (p.1 i j + s.sigma * dr.noise i j) 0 255
          img_truth := p.2 },
       fun i j => clip (p.1 i j + s.sigma * dr.noise i j) 0 255, p.2) := by
  unfold Data_Generator.generate
  rw [hp]
  rfl

/-- The truth grid is monotone under painting: a pixel already at `1`
stays at `1` after any further disks are painted. -/
theorem paintDisks_mono (nx ny : Nat) (ds : List Disk) :
    ∀ (img0 tru0 img1 tru1 : Grid) (i j : Nat), tru0 i j = 1 →
      paintDisks nx ny ds img0 tru0 = some (img1, tru1) → tru1 i j = 1 := by
  induction ds with
  | nil =>
    intro img0 tru0 img1 tru1 i j h0 hp
    simp only [paintDisks, Option.some.injEq, Prod.mk.injEq] at hp
    rw [← hp.2]
    exact h0
  | cons d ds ih =>
    intro img0 tru0 img1 tru1 i j h0 hp
    simp only [paintDisks] at hp
    by_cases h : nx = ny
    · rw [if_pos h] at hp
      refine ih _ _ _ _ i j ?_ hp
      by_cases hd : diskMask d i j <;> simp [hd, h0]
    · rw [if_neg h] at hp
      exact absurd hp (by simp)

/-- `np.clip(x, 0, 255)` is the identity on values already in `[0, 255]`. -/
theorem clip_of_mem (x : ℚ) (h1 : 0 ≤ x) (h2 : x ≤ 255) : clip x 0 255 = x := by
  unfold clip rmin rmax
  split_ifs <;> linarith

/-- C7: within one call on a fresh instance with `sigma = 0` that draws
the disks `d1` then `d2` with distinct values (and `d2.v` a valid gray
level), the call succeeds, every pixel strictly inside both discs has
final image value `d2.v` (last drawn wins), the mask is `1` exactly on
the union of the two discs, and the mask is monotone during the call:
once a pixel is `1` it stays `1` under painting any further disks. -/
theorem C7_overlap_precedence (n : Nat) (theta rmean rstd vmin vmax : ℚ)
    (d1 d2 : Disk) (noise : Grid)
    (hne : d1.v ≠ d2.v) (h0 : 0 ≤ d2.v) (h255 : d2.v ≤ 255) :
    ∃ s2 img tru,
      (Data_Generator.init n n theta rmean rstd vmin vmax 0).generate ⟨[d1, d2], noise⟩
        = some (s2, img, tru) ∧
      (∀ i j, diskMask d1 i j = true → diskMask d2 i j = true → img i j = d2.v) ∧
      (∀ i j, tru i j = 1 ↔ (diskMask d1 i j = true ∨ diskMask d2 i j = true)) ∧
      (∀ ds img0 tru0 img1 tru1 i j, tru0 i j = 1 →
        paintDisks n n ds img0 tru0 = some (img1, tru1) → tru1 i j = 1) := by
  have hp := paintDisks_two n d1 d2 (fun _ _ => (0:ℚ)) (fun _ _ => (0:ℚ))
  refine ⟨_, _, _, generate_eq _ _ _ hp, ?_, ?_, ?_⟩
  · intro i j h1 h2
    simp only [h2, if_true, Data_Generator.init, zero_mul, add_zero]
    exact clip_of_mem _ h0 h255
  · intro i j
    by_cases h1 : diskMask d1 i j <;> by_cases h2 : diskMask d2 i j <;>
      simp [h1, h2]
  · intro ds img0 tru0 img1 tru1 i j h0' hp'
    exact paintDisks_mono n n ds img0 tru0 img1 tru1 i j h0' hp'

/-- C7 witness: the overlap-precedence theorem instantiated on a 4×4
grid with disks of values `50` then `60`. -/
theorem C7_overlap_precedence_witness :
    (Disk.mk 1 1 (3/2) 50).v ≠ (Disk.mk 2 1 (3/2) 60).v ∧
    (0:ℚ) ≤ (Disk.mk 2 1 (3/2) 60).v ∧ (Disk.mk 2 1 (3/2) 60).v ≤ 255 ∧
    (∃ s2 img tru,
      (Data_Generator.init 4 4 5 4 (1/2) 15 200 0).generate
          ⟨[Disk.mk 1 1 (3/2) 50, Disk.mk 2 1 (3/2) 60], fun _ _ => 0⟩
        = some (s2, img, tru) ∧
      (∀ i j, diskMask (Disk.mk 1 1 (3/2) 50) i j = true →
        diskMask (Disk.mk 2 1 (3/2) 60) i j = true →
        img i j = (Disk.mk 2 1 (3/2) 60).v) ∧
      (∀ i j, tru i j = 1 ↔ (diskMask (Disk.mk 1 1 (3/2) 50) i j = true ∨
        diskMask (Disk.mk 2 1 (3/2) 60) i j = true)) ∧
      (∀ ds img0 tru0 img1 tru1 i j, tru0 i j = 1 →
        paintDisks 4 4 ds img0 tru0 = some (img1, tru1) → tru1 i j = 1)) := by
  refine ⟨by norm_num, by norm_num, by norm_num, ?_⟩
  exact C7_overlap_precedence 4 5 4 (1/2) 15 200 (Disk.mk 1 1 (3/2) 50)
    (Disk.mk 2 1 (3/2) 60) (fun _ _ => 0) (by norm_num) (by norm_num) (by norm_num)

/-- C8: membership of pixel `(x, y)` in a disk is the strict test
`(x - xc)^2 + (y - yc)^2 < r^2` (in the grids the column index `j`
is the `x` coordinate and the row index `i` is the `y` coordinate),
the test depends on the radius only through its square, so painting a
disk with radius `-r` produces exactly the same result as radius `r`,
and a disk of radius `0` covers no pixel. -/
theorem C8_strict_membership_radius_sign (xc yc r v : ℚ) (nx ny : Nat)
    (img tru : Grid) :
    (∀ i j : Nat, diskMask ⟨xc, yc, r, v⟩ i j = true ↔
      ((j : ℚ) - xc) ^ 2 + ((i : ℚ) - yc) ^ 2 < r ^ 2) ∧
    paintDisks nx ny [⟨xc, yc, -r, v⟩] img tru
      = paintDisks nx ny [⟨xc, yc, r, v⟩] img tru ∧
    (∀ i j : Nat, diskMask ⟨xc, yc, 0, v⟩ i j = false) := by
  refine ⟨?_, ?_, ?_⟩
  · intro i j
    simp [diskMask, sub_neg]
  · have hm : ∀ i j : Nat, diskMask ⟨xc, yc, -r, v⟩ i j
        = diskMask ⟨xc, yc, r, v⟩ i j := by
      intro i j
      simp [diskMask, neg_sq]
    simp only [paintDisks, hm]
  · intro i j
    have hnn : (0:ℚ) ≤ ((j : ℚ) - xc) ^ 2 + ((i : ℚ) - yc) ^ 2 := by positivity
    simp only [diskMask, decide_eq_false_iff_not, not_lt]
    nlinarith [hnn]

/-- C9: `generate` is deterministic given its draws: two instances
built from componentwise identical configurations, fed the same
sequence of draw outcomes (disk lists and noise grids), produce
identical results on every corresponding call, states included. -/
theorem C9_determinism (nxa nya : Nat) (ta ra rsa va wa sa : ℚ)
    (nxb nyb : Nat) (tb rb rsb vb wb sb : ℚ)
    (h1 : nxa = nxb) (h2 : nya = nyb) (h3 : ta = tb) (h4 : ra = rb)
    (h5 : rsa = rsb) (h6 : va = vb) (h7 : wa = wb) (h8 : sa = sb)
    (drs : List Draws) :
    generateSeq (Data_Generator.init nxa nya ta ra rsa va wa sa) drs
      = generateSeq (Data_Generator.init nxb nyb tb rb rsb vb wb sb) drs := by
  subst h1 h2 h3 h4 h5 h6 h7 h8
  rfl

/-- C9 witness: two instances with the configuration of `gen0` agree on
the one-call sequence `[drawsOne]`. -/
theorem C9_determinism_witness :
    generateSeq (Data_Generator.init 2 2 1 1 0 0 255 0) [drawsOne]
      = generateSeq (Data_Generator.init 2 2 1 1 0 0 255 0) [drawsOne] :=
  C9_determinism 2 2 1 1 0 0 255 0 2 2 1 1 0 0 255 0
    rfl rfl rfl rfl rfl rfl rfl rfl [drawsOne]

/-- C10: on a square grid (`nx = ny = n`), a single-disk call on a
fresh instance sets the mask entry at row `i`, column `j` to `1`
exactly when `(j - xc)^2 + (i - yc)^2 < r^2`: the first array axis is
the `y` coordinate and the second is the `x` coordinate, so the disk
appears centered at row `yc`, column `xc`. -/
theorem C10_row_is_y_column_is_x (n : Nat) (theta rmean rstd vmin vmax sigma : ℚ)
    (d : Disk) (noise : Grid) :
    ∃ s2 img tru,
      (Data_Generator.init n n theta rmean rstd vmin vmax sigma).generate
          ⟨[d], noise⟩ = some (s2, img, tru) ∧
      ∀ i j : Nat,
        (tru i j = 1 ↔ ((j : ℚ) - d.xc) ^ 2 + ((i : ℚ) - d.yc) ^ 2 < d.r ^ 2) ∧
        (tru i j = 1 ∨ tru i j = 0) := by
  have hp : paintDisks n n [d] (fun _ _ => (0:ℚ)) (fun _ _ => (0:ℚ)) = some
      (fun i j => if diskMask d i j then d.v else 0,
       fun i j => if diskMask d i j then 1 else 0) := by
    simp [paintDisks]
  refine ⟨_, _, _, generate_eq _ _ _ hp, ?_⟩
  intro i j
  cases h : diskMask d i j with
  | true =>
    have h2 : ((j : ℚ) - d.xc) ^ 2 + ((i : ℚ) - d.yc) ^ 2 < d.r ^ 2 := by
      simpa [diskMask, sub_neg] using h
    exact ⟨by simp [h, h2], Or.inl (by simp [h])⟩
  | false =>
    have h2 : ¬ (((j : ℚ) - d.xc) ^ 2 + ((i : ℚ) - d.yc) ^ 2 < d.r ^ 2) := by
      simpa [diskMask, sub_neg] using h
    exact ⟨by simp [h, h2], Or.inr (by simp [h])⟩
